import Mathlib

/-!
# Verification of the `screamingflappy` audio classification pipeline

Shallow embedding of `src/audio_processor.py` (class `AdvancedAudioProcessor`).
Real numbers are modelled by `ℚ`.  The two numpy front-end operations that
produce irrational values — `np.sqrt` in the RMS computation and the complex
FFT behind the magnitude spectrum — are not computed here; instead every audio
frame carries its raw samples together with the RMS value and the magnitude
spectrum that numpy would deliver for it, and the pipeline consumes those
exactly as the Python code does.  Everything downstream of that front end
(energies, the band mask, the spectral centroid, the adaptive percentile
noise floor, onset ratios, the decision fusion and the debouncer) is exact
rational arithmetic transliterated from the source.
-/

namespace ScreamingFlappy

/-- An audio frame: the raw samples of the block together with the two
numpy front-end derived quantities the pipeline reads, namely
`rms = sqrt(mean(samples**2))` and `magnitude = abs(rfft(samples))`.
The Python code treats both as opaque nonnegative floats computed once
per frame; we take them as given attributes of the frame. -/
structure Frame where
  samples : List ℚ
  rms : ℚ
  magnitude : List ℚ
  deriving Repr, DecidableEq

/-- Placeholder frame used for total indexing (the Python code indexes the
buffer only after guarding its length, so the default is never read). -/
def defaultFrame : Frame := ⟨[], 0, []⟩

/-- The mutable state of `AdvancedAudioProcessor`, one field per attribute
set in `__init__` (the sounddevice stream handle is outside the model). -/
structure ProcState where
  samplerate : ℚ
  blocksize : ℕ
  sensitivity : ℚ
  audio_buffer : List Frame
  freq_min : ℚ
  freq_max : ℚ
  freq_threshold : ℚ
  centroid_history : List ℚ
  centroid_threshold : ℚ
  onset_history : List ℚ
  onset_threshold : ℚ
  noise_floor : ℚ
  noise_floor_history : List ℚ
  is_loud_smoothed : Bool
  loud_counter : ℤ
  loud_threshold : ℤ
  loud : Bool
  deriving Repr, DecidableEq

/-- `collections.deque(maxlen := n)` append: the new element goes to the
right and elements are discarded from the left so that at most `n` remain. -/
def dequeAppend {α : Type} (maxlen : ℕ) (l : List α) (x : α) : List α :=
  let l2 := l ++ [x]
  l2.drop (l2.length - maxlen)

/-- `AdvancedAudioProcessor.__init__`: the initial state, with the default
attribute values from lines 40-70 of the source. -/
def initState (samplerate : ℚ) (blocksize : ℕ) (sensitivity : ℚ) : ProcState :=
  { samplerate := samplerate
    blocksize := blocksize
    sensitivity := sensitivity
    audio_buffer := []
    freq_min := 500
    freq_max := 4000
    freq_threshold := 0.015
    centroid_history := []
    centroid_threshold := 0.4
    onset_history := []
    onset_threshold := 1.5
    noise_floor := 0.002
    noise_floor_history := []
    is_loud_smoothed := false
    loud_counter := 0
    loud_threshold := 2
    loud := false }

/-- `np.fft.rfftfreq(blocksize, 1/samplerate)[k] = k * samplerate / blocksize`:
the center frequency of FFT bin `k`. -/
def rfftfreq (samplerate : ℚ) (blocksize : ℕ) (k : ℕ) : ℚ :=
  (k : ℚ) * samplerate / (blocksize : ℚ)

/-- `np.sum(frame ** 2)`: energy of a sample list. -/
def sumSquares (l : List ℚ) : ℚ := (l.map (fun v => v ^ 2)).sum

/-- Energy of the magnitude bins whose frequency lies in
`[freq_min, freq_max]` — the code's
`np.sum(magnitude[self.freq_band_indices] ** 2)` with the mask
`(freqs >= freq_min) & (freqs <= freq_max)` from `_setup_frequency_bands`. -/
def bandEnergy (samplerate : ℚ) (blocksize : ℕ) (fmin fmax : ℚ)
    (magnitude : List ℚ) : ℚ :=
  ((magnitude.enum.filter fun p =>
      decide (fmin ≤ rfftfreq samplerate blocksize p.1) &&
      decide (rfftfreq samplerate blocksize p.1 ≤ fmax)).map
    fun p => p.2 ^ 2).sum

/-- `_calculate_spectral_centroid`: energy-weighted mean frequency, with the
division-by-zero guard returning 0 on an all-zero magnitude spectrum. -/
def calculate_spectral_centroid (samplerate : ℚ) (blocksize : ℕ)
    (magnitude : List ℚ) : ℚ :=
  if magnitude.sum = 0 then 0
  else ((magnitude.enum.map fun p => rfftfreq samplerate blocksize p.1 * p.2).sum) /
    magnitude.sum

/-- Insert a rational into a sorted list (ascending). -/
def insortQ (x : ℚ) : List ℚ → List ℚ
  | [] => [x]
  | y :: ys => if x ≤ y then x :: y :: ys else y :: insortQ x ys

/-- Insertion sort on rationals, used to model numpy's percentile. -/
def sortQ : List ℚ → List ℚ
  | [] => []
  | x :: xs => insortQ x (sortQ xs)

/-- `np.percentile(a, 10)` with numpy's default linear interpolation:
the value at virtual index `(n - 1) / 10` of the sorted data. -/
def percentile10 (l : List ℚ) : ℚ :=
  let s := sortQ l
  let n := s.length
  if n = 0 then 0
  else
    let i : ℕ := (n - 1) / 10
    let f : ℚ := ((n : ℚ) - 1) / 10 - (i : ℚ)
    s.getD i 0 + f * (s.getD (i + 1) (s.getD i 0) - s.getD i 0)

/-- `_calculate_onset_strength`: energy ratio of the newest buffered frame to
the one before it.  Returns 0 with fewer than two buffered frames, and 0 when
the previous frame's energy is exactly zero; otherwise
`current_energy / (prev_energy + 1e-10)`. -/
def calculate_onset_strength (audio_buffer : List Frame) (frame : Frame) : ℚ :=
  if audio_buffer.length < 2 then 0
  else
    let current_energy := sumSquares frame.samples
    let prev_frame := audio_buffer.getD (audio_buffer.length - 2) defaultFrame
    let prev_energy := sumSquares prev_frame.samples
    if prev_energy = 0 then 0
    else current_energy / (prev_energy + 1e-10)

/-- `_make_decision`: the four feature checks and their fusion — immediate
true on `onset_check and freq_check`, else true when at least 3 of the 4
checks pass, else false. -/
def make_decision (st : ProcState) (rms noise_floor band_ratio centroid
    onset_strength : ℚ) : Bool :=
  let rms_check := decide (rms > noise_floor * 1.5)
  let freq_check := decide (band_ratio > 0.35)
  let centroid_check := decide (centroid > 800 ∧ centroid < 5000)
  let onset_check := decide (onset_strength > st.onset_threshold)
  let checks_passed := [rms_check, freq_check, centroid_check, onset_check].count true
  if onset_check && freq_check then true
  else if 3 ≤ checks_passed then true
  else false

/-- Lines 172-179 of the source: one debounce step.  Increment the counter on
a true raw decision, decrement (floored at 0) on a false one, and publish
`loud = (counter >= threshold)` for the updated counter. -/
def debounce (is_loud : Bool) (counter threshold : ℤ) : ℤ × Bool :=
  let c := if is_loud then counter + 1 else max 0 (counter - 1)
  (c, decide (threshold ≤ c))

/-- Iterate `debounce` over a list of raw per-frame decisions, returning the
(counter, loud) pair after each step. -/
def runDebounce (ds : List Bool) (counter threshold : ℤ) : List (ℤ × Bool) :=
  match ds with
  | [] => []
  | d :: rest =>
    let r := debounce d counter threshold
    r :: runDebounce rest r.1 threshold

/-- `_process_audio`: the per-frame pipeline.  Computes RMS and the adaptive
10th-percentile noise floor; below `noise_floor * 1.5` it resets the debounce
state and returns without any spectral work.  Otherwise it computes band
energy, total energy (returning with a reset on zero), band ratio, spectral
centroid, onset strength, fuses them with `make_decision`, and runs one
debounce step. -/
def process_audio (st : ProcState) : ProcState :=
  if st.audio_buffer.length = 0 then st
  else
    let current_frame := st.audio_buffer.getLastD defaultFrame
    let rms := current_frame.rms
    let hist := dequeAppend 100 st.noise_floor_history rms
    let noise_floor := percentile10 hist
    if rms < noise_floor * 1.5 then
      { st with noise_floor_history := hist, loud_counter := 0, loud := false }
    else
      let magnitude := current_frame.magnitude
      let target_band_energy :=
        bandEnergy st.samplerate st.blocksize st.freq_min st.freq_max magnitude
      let total_energy := sumSquares magnitude
      if total_energy = 0 then
        { st with noise_floor_history := hist, loud_counter := 0, loud := false }
      else
        let band_ratio := target_band_energy / total_energy
        let centroid := calculate_spectral_centroid st.samplerate st.blocksize magnitude
        let ch := dequeAppend 10 st.centroid_history centroid
        let onset_strength := calculate_onset_strength st.audio_buffer current_frame
        let oh := dequeAppend 8 st.onset_history onset_strength
        let is_loud :=
          make_decision st rms noise_floor band_ratio centroid onset_strength
        let r := debounce is_loud st.loud_counter st.loud_threshold
        { st with noise_floor_history := hist, centroid_history := ch,
                  onset_history := oh, loud_counter := r.1, loud := r.2 }

/-- `_audio_callback`: append the incoming frame to the 4-deep audio buffer
and run the processing pipeline. -/
def audio_callback (st : ProcState) (frame : Frame) : ProcState :=
  process_audio { st with audio_buffer := dequeAppend 4 st.audio_buffer frame }

/-- `is_loud`: the externally polled debounced state. -/
def is_loud (st : ProcState) : Bool := st.loud

/-- `set_sensitivity`: clamp to [0,1], then recompute
`freq_threshold = 0.020 - s * 0.008` and `onset_threshold = 2.0 - s * 0.5`. -/
def set_sensitivity (st : ProcState) (sensitivity : ℚ) : ProcState :=
  let s := max 0 (min 1 sensitivity)
  { st with sensitivity := s
            freq_threshold := 0.020 - s * 0.008
            onset_threshold := 2.0 - s * 0.5 }

/-- The debounce-state invariant maintained by the pipeline: the threshold
stays at its constructed value 2, the counter never goes negative, and the
published flag always equals `counter >= threshold`. -/
def Inv (st : ProcState) : Prop :=
  st.loud_threshold = 2 ∧ 0 ≤ st.loud_counter ∧
    st.loud = decide (2 ≤ st.loud_counter)

/-- A processor state mid-run: RMS history `[1, 1]`, debounce counter 2,
published flag true. -/
def exGateState : ProcState :=
  { initState 44100 2 0.5 with
      noise_floor_history := [1, 1], loud_counter := 2, loud := true }

/-- A quiet two-sample frame `[0.001, -0.001]`: its RMS is `0.001` and its
real-FFT magnitude spectrum is `[0, 0.002]`. -/
def exQuietFrame : Frame := ⟨[1/1000, -1/1000], 1/1000, [0, 2/1000]⟩

/-- A fresh processor on two-sample blocks. -/
def exZeroState : ProcState := initState 44100 2 0.5

/-- The all-zero two-sample frame: RMS 0, magnitude spectrum `[0, 0]`. -/
def exZeroFrame : Frame := ⟨[0, 0], 0, [0, 0]⟩

/-- A constant frame `[1, 1]`: RMS 1, magnitude spectrum `[2, 0]`, energy 2. -/
def exToneFrame : Frame := ⟨[1, 1], 1, [2, 0]⟩

/-- A two-frame buffer whose older frame is all-zero and whose newest frame
is `exToneFrame`. -/
def exOnsetZeroBuf : List Frame := [exZeroFrame, exToneFrame]

/-- A two-frame buffer holding two copies of `exToneFrame` (equal energies). -/
def exOnsetEqBuf : List Frame := [exToneFrame, exToneFrame]

/-! ## Basic facts about the deque and the percentile -/

lemma dequeAppend_eq {α : Type} (n : ℕ) (hn : 1 ≤ n) (l : List α) (x : α) :
    dequeAppend n l x = l.drop (l.length + 1 - n) ++ [x] := by
  unfold dequeAppend
  simp only [List.length_append, List.length_singleton]
  rw [List.drop_append_of_le_length (by omega)]

lemma length_dequeAppend {α : Type} (n : ℕ) (l : List α) (x : α) :
    (dequeAppend n l x).length = min n (l.length + 1) := by
  unfold dequeAppend
  simp only [List.length_drop, List.length_append, List.length_singleton]
  omega

lemma length_dequeAppend_ne_zero {α : Type} (n : ℕ) (hn : 1 ≤ n) (l : List α) (x : α) :
    ¬ (dequeAppend n l x).length = 0 := by
  rw [length_dequeAppend]; omega

lemma getLastD_dequeAppend {α : Type} (n : ℕ) (hn : 1 ≤ n) (l : List α) (x d : α) :
    (dequeAppend n l x).getLastD d = x := by
  rw [dequeAppend_eq n hn]
  simp [List.getLastD_concat]

lemma percentile10_singleton (r : ℚ) : percentile10 [r] = r := by
  simp [percentile10, sortQ, insortQ]

lemma sumSquares_nonneg (l : List ℚ) : 0 ≤ sumSquares l := by
  induction l with
  | nil => simp [sumSquares]
  | cons x xs ih =>
    simp only [sumSquares, List.map_cons, List.sum_cons] at *
    have := sq_nonneg x
    nlinarith

lemma sum_eq_zero_of_sumSquares_eq_zero (l : List ℚ) (h : sumSquares l = 0) :
    l.sum = 0 := by
  induction l with
  | nil => simp
  | cons x xs ih =>
    simp only [sumSquares, List.map_cons, List.sum_cons] at h
    have hx2 : 0 ≤ x ^ 2 := sq_nonneg x
    have hxs : 0 ≤ sumSquares xs := sumSquares_nonneg xs
    have h1 : x ^ 2 = 0 := by
      simp only [sumSquares] at hxs; nlinarith
    have h2 : sumSquares xs = 0 := by
      simp only [sumSquares] at *; nlinarith
    have hx : x = 0 := by
      have := sq_eq_zero_iff.mp h1; simpa using this
    simp [hx, ih h2]

/-! ## Branch characterizations of the per-frame pipeline -/

/-- Noise-gate branch: when the frame's RMS is below 1.5 times the adaptive
floor (the 10th percentile of the updated RMS history), the pipeline resets
the debounce state and touches nothing else (no FFT stage runs). -/
lemma audio_callback_gate (st : ProcState) (fr : Frame)
    (h : fr.rms < percentile10 (dequeAppend 100 st.noise_floor_history fr.rms) * 1.5) :
    audio_callback st fr =
      { st with audio_buffer := dequeAppend 4 st.audio_buffer fr,
                noise_floor_history := dequeAppend 100 st.noise_floor_history fr.rms,
                loud_counter := 0, loud := false } := by
  cases st
  simp only [audio_callback, process_audio]
  rw [getLastD_dequeAppend 4 (by omega)]
  rw [if_neg (length_dequeAppend_ne_zero 4 (by omega) _ _), if_pos h]

/-- Zero-total-energy branch: when the frame passes the gate but its magnitude
spectrum has zero total energy, the pipeline resets the debounce state and
skips the band-ratio, centroid and onset stages. -/
lemma audio_callback_zero_energy (st : ProcState) (fr : Frame)
    (hg : ¬ fr.rms < percentile10 (dequeAppend 100 st.noise_floor_history fr.rms) * 1.5)
    (h0 : sumSquares fr.magnitude = 0) :
    audio_callback st fr =
      { st with audio_buffer := dequeAppend 4 st.audio_buffer fr,
                noise_floor_history := dequeAppend 100 st.noise_floor_history fr.rms,
                loud_counter := 0, loud := false } := by
  cases st
  simp only [audio_callback, process_audio]
  rw [getLastD_dequeAppend 4 (by omega)]
  rw [if_neg (length_dequeAppend_ne_zero 4 (by omega) _ _), if_neg hg, if_pos h0]

/-- Every branch of the pipeline records the frame's RMS in the bounded
noise-floor history. -/
lemma noise_floor_history_audio_callback (st : ProcState) (fr : Frame) :
    (audio_callback st fr).noise_floor_history =
      dequeAppend 100 st.noise_floor_history fr.rms := by
  cases st
  simp only [audio_callback, process_audio]
  rw [getLastD_dequeAppend 4 (by omega)]
  rw [if_neg (length_dequeAppend_ne_zero 4 (by omega) _ _)]
  split_ifs <;> rfl

/-- One debounce step with threshold 2 keeps the counter nonnegative and
publishes exactly `counter' >= 2`. -/
lemma debounce_inv (d : Bool) (c : ℤ) (hc : 0 ≤ c) :
    0 ≤ (debounce d c 2).1 ∧
      (debounce d c 2).2 = decide (2 ≤ (debounce d c 2).1) := by
  refine ⟨?_, rfl⟩
  cases d
  · simp only [debounce]
    omega
  · simp only [debounce]
    omega

/-! ## Claim theorems -/

/-- C1: for every input `(rms, noiseFloor, bandEnergyRatio, centroidHz,
onsetRatio)` the decision engine returns true iff either both the onset check
and the frequency check hold, or at least 3 of the 4 checks
`{rms > noiseFloor * 1.5, bandEnergyRatio > 0.35, 800 < centroidHz < 5000,
onsetRatio > onsetRatioThreshold}` hold. -/
theorem make_decision_fusion_iff (st : ProcState)
    (rms noise_floor band_ratio centroid onset_strength : ℚ) :
    make_decision st rms noise_floor band_ratio centroid onset_strength = true ↔
      ((onset_strength > st.onset_threshold ∧ band_ratio > 0.35) ∨
        3 ≤ [decide (rms > noise_floor * 1.5), decide (band_ratio > 0.35),
             decide (centroid > 800 ∧ centroid < 5000),
             decide (onset_strength > st.onset_threshold)].count true) := by
  by_cases h1 : rms > noise_floor * 1.5 <;>
    by_cases h2 : band_ratio > (0.35 : ℚ) <;>
      by_cases h3 : centroid > 800 ∧ centroid < 5000 <;>
        by_cases h4 : onset_strength > st.onset_threshold <;>
          simp [make_decision, h1, h2, h3, h4, List.count_cons]

/-- C2: one debounce step sends the counter `c >= 0` to `c + 1` on a true raw
decision and to `max(0, c - 1)` on a false one, and the reported loud state
after the step is true exactly when the updated counter is at least 2. -/
theorem debounce_step_spec (d : Bool) (c : ℤ) (hc : 0 ≤ c) :
    (debounce d c 2).1 = (if d then c + 1 else max 0 (c - 1)) ∧
      ((debounce d c 2).2 = true ↔ 2 ≤ (debounce d c 2).1) := by
  refine ⟨rfl, ?_⟩
  simp [debounce]

/-- Witness for C2 at `d = true`, `c = 1`. -/
theorem debounce_step_spec_witness :
    (0 : ℤ) ≤ 1 ∧
      ((debounce true 1 2).1 = (if true then (1 : ℤ) + 1 else max 0 (1 - 1)) ∧
        ((debounce true 1 2).2 = true ↔ 2 ≤ (debounce true 1 2).1)) :=
  ⟨by decide, debounce_step_spec true 1 (by decide)⟩

/-- C3 counterexample: feeding `[true, true, false, false]` into the debouncer
from counter 0 with threshold 2 does NOT produce the loud trace
`[false, true, true, false]` claimed by the spec (the third entry is false:
after the first false decision the counter drops to 1, which is below the
threshold, so the published state drops with it — there is no hysteresis). -/
theorem debounce_trace_counterexample :
    ¬ ((runDebounce [true, true, false, false] 0 2).map Prod.snd =
        [false, true, true, false]) := by decide

/-- C3 (amended): the sequence `[true, true, false, false]` from the initial
debounce state with threshold 2 yields counters 1, 2, 1, 0 and the loud trace
`[false, true, false, false]`. -/
theorem debounce_trace_corrected :
    runDebounce [true, true, false, false] 0 2 =
      [(1, false), (2, true), (1, false), (0, false)] := by decide

/-- C4 counterexample: a below-gate frame does not get the normal
false-decision debounce step.  With counter 2 and a frame whose RMS is below
1.5 times the adaptive floor, the code resets the counter to 0, not to
`max(0, 2 - 1) = 1`. -/
theorem noise_gate_counterexample :
    exQuietFrame.rms <
        percentile10 (dequeAppend 100 exGateState.noise_floor_history
          exQuietFrame.rms) * 1.5 ∧
      (audio_callback exGateState exQuietFrame).loud_counter = 0 ∧
      ¬ ((audio_callback exGateState exQuietFrame).loud_counter =
          max 0 (exGateState.loud_counter - 1)) := by
  have hgate : exQuietFrame.rms <
      percentile10 (dequeAppend 100 exGateState.noise_floor_history
        exQuietFrame.rms) * 1.5 := by
    norm_num [exQuietFrame, exGateState, initState, dequeAppend, percentile10,
      sortQ, insortQ, List.getD]
  rw [audio_callback_gate _ _ hgate]
  refine ⟨hgate, rfl, ?_⟩
  simp [exGateState, initState]

/-- C4 (amended): for every frame whose RMS is below 1.5 times the adaptive
noise floor, processing short-circuits before any FFT or spectral work (only
the audio buffer and the RMS history change) and hard-resets the debouncer:
the counter is set to 0 and the published state to false. -/
theorem noise_gate_hard_reset (st : ProcState) (fr : Frame)
    (h : fr.rms <
      percentile10 (dequeAppend 100 st.noise_floor_history fr.rms) * 1.5) :
    audio_callback st fr =
      { st with audio_buffer := dequeAppend 4 st.audio_buffer fr,
                noise_floor_history := dequeAppend 100 st.noise_floor_history fr.rms,
                loud_counter := 0, loud := false } :=
  audio_callback_gate st fr h

/-- Witness for C4 (amended) at `exGateState` and `exQuietFrame`. -/
theorem noise_gate_hard_reset_witness :
    exQuietFrame.rms <
        percentile10 (dequeAppend 100 exGateState.noise_floor_history
          exQuietFrame.rms) * 1.5 ∧
      audio_callback exGateState exQuietFrame =
        { exGateState with
            audio_buffer := dequeAppend 4 exGateState.audio_buffer exQuietFrame,
            noise_floor_history :=
              dequeAppend 100 exGateState.noise_floor_history exQuietFrame.rms,
            loud_counter := 0, loud := false } := by
  have hgate : exQuietFrame.rms <
      percentile10 (dequeAppend 100 exGateState.noise_floor_history
        exQuietFrame.rms) * 1.5 := by
    norm_num [exQuietFrame, exGateState, initState, dequeAppend, percentile10,
      sortQ, insortQ, List.getD]
  exact ⟨hgate, noise_gate_hard_reset exGateState exQuietFrame hgate⟩

/-- C5: every per-frame observation appends the frame's RMS to the bounded
100-deep FIFO history; the length never exceeds the capacity, the oldest
value is evicted when appending at capacity, and the 10th percentile of a
single-element history is that element. -/
theorem noise_floor_estimator_spec (st : ProcState) (fr : Frame)
    (l : List ℚ) (x r : ℚ) (h : l.length ≤ 100) :
    (audio_callback st fr).noise_floor_history =
        dequeAppend 100 st.noise_floor_history fr.rms ∧
      (dequeAppend 100 l x).length ≤ 100 ∧
      (l.length = 100 → dequeAppend 100 l x = l.tail ++ [x]) ∧
      percentile10 [r] = r := by
  refine ⟨noise_floor_history_audio_callback st fr, ?_, ?_, percentile10_singleton r⟩
  · rw [length_dequeAppend]; omega
  · intro h100
    rw [dequeAppend_eq 100 (by omega), h100]
    norm_num [List.drop_one]

/-- Witness for C5 at a full history of one hundred ones. -/
theorem noise_floor_estimator_spec_witness :
    (List.replicate 100 (1 : ℚ)).length ≤ 100 ∧
      ((audio_callback exZeroState exZeroFrame).noise_floor_history =
          dequeAppend 100 exZeroState.noise_floor_history exZeroFrame.rms ∧
        (dequeAppend 100 (List.replicate 100 (1 : ℚ)) 5).length ≤ 100 ∧
        ((List.replicate 100 (1 : ℚ)).length = 100 →
          dequeAppend 100 (List.replicate 100 (1 : ℚ)) 5 =
            (List.replicate 100 (1 : ℚ)).tail ++ [5]) ∧
        percentile10 [(7 : ℚ)] = 7) :=
  ⟨by simp, noise_floor_estimator_spec exZeroState exZeroFrame
    (List.replicate 100 1) 5 7 (by simp)⟩

/-- C6 counterexample: the newest of two buffered frames does not always get
onset ratio `currentEnergy / (previousEnergy + 1e-10)`.  When the previous
frame has exactly zero energy the code returns 0, while the claimed formula
gives `2 / 1e-10 = 2 * 10^10`. -/
theorem onset_formula_counterexample :
    calculate_onset_strength exOnsetZeroBuf exToneFrame = 0 ∧
      sumSquares ((exOnsetZeroBuf.getD 0 defaultFrame).samples) = 0 ∧
      ¬ (calculate_onset_strength exOnsetZeroBuf exToneFrame =
          sumSquares exToneFrame.samples /
            (sumSquares ((exOnsetZeroBuf.getD 0 defaultFrame).samples) + 1e-10)) := by
  norm_num [calculate_onset_strength, exOnsetZeroBuf, exZeroFrame, exToneFrame,
    defaultFrame, sumSquares, List.getD]

/-- C6 (amended): with fewer than two buffered frames the onset detector
returns 0; with a zero-energy previous frame it returns 0; otherwise it
returns `currentEnergy / (previousEnergy + 1e-10)`, so equal nonzero energies
`E` give a ratio within `1e-10 / E` of 1 and a tripled energy gives a ratio
within `3e-10 / E` of 3. -/
theorem onset_strength_spec (buffer : List Frame) (fr : Frame) :
    (buffer.length < 2 → calculate_onset_strength buffer fr = 0) ∧
      (2 ≤ buffer.length →
        sumSquares ((buffer.getD (buffer.length - 2) defaultFrame).samples) = 0 →
        calculate_onset_strength buffer fr = 0) ∧
      (∀ pE : ℚ, 2 ≤ buffer.length →
        sumSquares ((buffer.getD (buffer.length - 2) defaultFrame).samples) = pE →
        pE ≠ 0 →
        calculate_onset_strength buffer fr =
          sumSquares fr.samples / (pE + 1e-10)) ∧
      (∀ E : ℚ, 0 < E → 2 ≤ buffer.length →
        sumSquares ((buffer.getD (buffer.length - 2) defaultFrame).samples) = E →
        sumSquares fr.samples = E →
        |calculate_onset_strength buffer fr - 1| < 1e-10 / E) ∧
      (∀ E : ℚ, 0 < E → 2 ≤ buffer.length →
        sumSquares ((buffer.getD (buffer.length - 2) defaultFrame).samples) = E →
        sumSquares fr.samples = 3 * E →
        |calculate_onset_strength buffer fr - 3| < 3 * 1e-10 / E) := by
  have hform : ∀ pE : ℚ, 2 ≤ buffer.length →
      sumSquares ((buffer.getD (buffer.length - 2) defaultFrame).samples) = pE →
      pE ≠ 0 →
      calculate_onset_strength buffer fr =
        sumSquares fr.samples / (pE + 1e-10) := by
    intro pE hlen hpe hne
    simp only [calculate_onset_strength]
    rw [if_neg (by omega), hpe, if_neg hne]
  refine ⟨?_, ?_, hform, ?_, ?_⟩
  · intro hlen
    simp only [calculate_onset_strength]
    rw [if_pos hlen]
  · intro hlen hz
    simp only [calculate_onset_strength]
    rw [if_neg (by omega), hz, if_pos rfl]
  · intro E hE hlen hpe hcur
    rw [hform E hlen hpe (ne_of_gt hE), hcur]
    have hEe : (0 : ℚ) < E + 1e-10 := by positivity
    have hkey : E / (E + 1e-10) - 1 = -((1e-10 : ℚ) / (E + 1e-10)) := by
      field_simp
    rw [hkey, abs_neg, abs_of_pos (by positivity)]
    exact div_lt_div_of_pos_left (by norm_num) hE (by norm_num)
  · intro E hE hlen hpe hcur
    rw [hform E hlen hpe (ne_of_gt hE), hcur]
    have hEe : (0 : ℚ) < E + 1e-10 := by positivity
    have hkey : 3 * E / (E + 1e-10) - 3 = -((3 * 1e-10 : ℚ) / (E + 1e-10)) := by
      field_simp; ring
    rw [hkey, abs_neg, abs_of_pos (by positivity)]
    exact div_lt_div_of_pos_left (by norm_num) hE (by norm_num)

/-- Witness for C6 (amended): two buffered frames of energy 2 each give an
onset ratio within `1e-10 / 2` of 1. -/
theorem onset_strength_spec_witness :
    (0 : ℚ) < 2 ∧ 2 ≤ exOnsetEqBuf.length ∧
      sumSquares ((exOnsetEqBuf.getD (exOnsetEqBuf.length - 2) defaultFrame).samples) = 2 ∧
      sumSquares exToneFrame.samples = 2 ∧
      |calculate_onset_strength exOnsetEqBuf exToneFrame - 1| < 1e-10 / 2 :=
  ⟨by norm_num, by norm_num [exOnsetEqBuf],
    by norm_num [exOnsetEqBuf, exToneFrame, defaultFrame, sumSquares, List.getD],
    by norm_num [exToneFrame, sumSquares],
    (onset_strength_spec exOnsetEqBuf exToneFrame).2.2.2.1 2
      (by norm_num) (by norm_num [exOnsetEqBuf])
      (by norm_num [exOnsetEqBuf, exToneFrame, defaultFrame, sumSquares, List.getD])
      (by norm_num [exToneFrame, sumSquares])⟩

/-- C7 counterexample: for a zero-total-energy frame the pipeline does not
report `centroidHz = 0` — it skips the spectral stage entirely, so nothing at
all is appended to the centroid history. -/
theorem zero_energy_counterexample :
    sumSquares exZeroFrame.magnitude = 0 ∧
      (audio_callback exZeroState exZeroFrame).centroid_history = [] ∧
      ¬ ((audio_callback exZeroState exZeroFrame).centroid_history = [0]) := by
  have hg : ¬ exZeroFrame.rms <
      percentile10 (dequeAppend 100 exZeroState.noise_floor_history
        exZeroFrame.rms) * 1.5 := by
    norm_num [exZeroFrame, exZeroState, initState, dequeAppend, percentile10,
      sortQ, insortQ, List.getD]
  have h0 : sumSquares exZeroFrame.magnitude = 0 := by
    norm_num [sumSquares, exZeroFrame]
  rw [audio_callback_zero_energy _ _ hg h0]
  exact ⟨h0, rfl, by simp [exZeroState, initState]⟩

/-- C7 (amended): a frame with zero total spectral energy is handled without
any division: the pipeline returns early (centroid and onset histories are
untouched, so no feature is reported for the frame), resets the counter to 0
and publishes not-loud immediately; the centroid helper itself returns 0 on
the frame's all-zero magnitude spectrum. -/
theorem zero_energy_safe (st : ProcState) (fr : Frame)
    (h : sumSquares fr.magnitude = 0) :
    (audio_callback st fr).loud_counter = 0 ∧
      (audio_callback st fr).loud = false ∧
      is_loud (audio_callback st fr) = false ∧
      (audio_callback st fr).centroid_history = st.centroid_history ∧
      (audio_callback st fr).onset_history = st.onset_history ∧
      calculate_spectral_centroid st.samplerate st.blocksize fr.magnitude = 0 := by
  have hc : calculate_spectral_centroid st.samplerate st.blocksize fr.magnitude = 0 := by
    unfold calculate_spectral_centroid
    rw [if_pos (sum_eq_zero_of_sumSquares_eq_zero _ h)]
  by_cases hg : fr.rms <
      percentile10 (dequeAppend 100 st.noise_floor_history fr.rms) * 1.5
  · rw [audio_callback_gate st fr hg]
    exact ⟨rfl, rfl, rfl, rfl, rfl, hc⟩
  · rw [audio_callback_zero_energy st fr hg h]
    exact ⟨rfl, rfl, rfl, rfl, rfl, hc⟩

/-- Witness for C7 (amended) at a fresh processor and the all-zero frame. -/
theorem zero_energy_safe_witness :
    sumSquares exZeroFrame.magnitude = 0 ∧
      ((audio_callback exZeroState exZeroFrame).loud_counter = 0 ∧
        (audio_callback exZeroState exZeroFrame).loud = false ∧
        is_loud (audio_callback exZeroState exZeroFrame) = false ∧
        (audio_callback exZeroState exZeroFrame).centroid_history =
          exZeroState.centroid_history ∧
        (audio_callback exZeroState exZeroFrame).onset_history =
          exZeroState.onset_history ∧
        calculate_spectral_centroid exZeroState.samplerate exZeroState.blocksize
          exZeroFrame.magnitude = 0) := by
  have h0 : sumSquares exZeroFrame.magnitude = 0 := by
    norm_num [sumSquares, exZeroFrame]
  exact ⟨h0, zero_energy_safe exZeroState exZeroFrame h0⟩

/-- C8: `set_sensitivity` stores the clamp of its argument to [0, 1], and the
recomputed onset-ratio and frequency-energy thresholds are strictly
decreasing in the clamped sensitivity: a strictly higher clamped value yields
strictly lower thresholds. -/
theorem set_sensitivity_spec (st : ProcState) (s s1 s2 : ℚ) :
    ((set_sensitivity st s).sensitivity = max 0 (min 1 s) ∧
      0 ≤ (set_sensitivity st s).sensitivity ∧
      (set_sensitivity st s).sensitivity ≤ 1) ∧
    (max 0 (min 1 s1) < max 0 (min 1 s2) →
      (set_sensitivity st s2).onset_threshold <
          (set_sensitivity st s1).onset_threshold ∧
        (set_sensitivity st s2).freq_threshold <
          (set_sensitivity st s1).freq_threshold) := by
  refine ⟨⟨rfl, le_max_left 0 _, max_le (by norm_num) (min_le_left 1 s)⟩, ?_⟩
  intro h
  simp only [set_sensitivity]
  constructor <;> nlinarith [h]

/-- Witness for C8 at `s1 = 0`, `s2 = 1`. -/
theorem set_sensitivity_spec_witness :
    max 0 (min 1 (0 : ℚ)) < max 0 (min 1 (1 : ℚ)) ∧
      ((set_sensitivity (initState 44100 2 0.5) 1).onset_threshold <
          (set_sensitivity (initState 44100 2 0.5) 0).onset_threshold ∧
        (set_sensitivity (initState 44100 2 0.5) 1).freq_threshold <
          (set_sensitivity (initState 44100 2 0.5) 0).freq_threshold) :=
  ⟨by norm_num,
    (set_sensitivity_spec (initState 44100 2 0.5) 0 0 1).2 (by norm_num)⟩

/-- C9: the debounce-state invariant — `loud_threshold = 2`,
`loud_counter >= 0` and `loud = (loud_counter >= 2)` — holds at
initialization and is preserved by every per-frame processing invocation,
including the noise-gate and zero-total-energy early returns. -/
theorem debounce_state_invariant :
    (∀ (sr : ℚ) (bs : ℕ) (s : ℚ), Inv (initState sr bs s)) ∧
      (∀ st : ProcState, Inv st → Inv (process_audio st)) ∧
      (∀ (st : ProcState) (fr : Frame), Inv st → Inv (audio_callback st fr)) := by
  have hstep : ∀ st : ProcState, Inv st → Inv (process_audio st) := by
    intro st h
    obtain ⟨ht, hc, hl⟩ := h
    simp only [process_audio]
    split_ifs with h1 h2 h3
    · exact ⟨ht, hc, hl⟩
    · exact ⟨ht, le_refl 0, by norm_num⟩
    · exact ⟨ht, le_refl 0, by norm_num⟩
    · refine ⟨ht, ?_, ?_⟩
      · rw [ht]
        exact (debounce_inv _ _ hc).1
      · rw [ht]
        exact (debounce_inv _ _ hc).2
  refine ⟨?_, hstep, fun st fr h => hstep _ ?_⟩
  · intro sr bs s
    exact ⟨rfl, le_refl 0, by norm_num [initState]⟩
  · exact ⟨h.1, h.2.1, h.2.2⟩

/-- Witness for C9 at a fresh processor and the all-zero frame. -/
theorem debounce_state_invariant_witness :
    Inv (initState 44100 2 0.5) ∧
      Inv (audio_callback (initState 44100 2 0.5) exZeroFrame) :=
  ⟨debounce_state_invariant.1 44100 2 0.5,
    debounce_state_invariant.2.2 (initState 44100 2 0.5) exZeroFrame
      (debounce_state_invariant.1 44100 2 0.5)⟩

/-- C10: the classification outcome does not depend on the `freq_threshold`
field — the decision engine compares the band-energy ratio against the fixed
constant 0.35 — so two states differing only in `freq_threshold` make the
same per-frame decision and end every callback in the same state apart from
that field. -/
theorem freq_threshold_noninterference (st : ProcState) (fr : Frame)
    (t rms noise_floor band_ratio centroid onset_strength : ℚ) :
    make_decision { st with freq_threshold := t } rms noise_floor band_ratio
        centroid onset_strength =
      make_decision st rms noise_floor band_ratio centroid onset_strength ∧
    audio_callback { st with freq_threshold := t } fr =
      { audio_callback st fr with freq_threshold := t } := by
  cases st
  refine ⟨rfl, ?_⟩
  simp only [audio_callback, process_audio]
  split_ifs <;> rfl

end ScreamingFlappy
